import Mathlib

/-!
Shallow embedding of the `vision` trading-bot repository, covering the
decision engine (`src/unnamed/part_000`: `EnhancedTradingAnalyzer`) and the
risk/strategy layer (`src/src/trading-bot.js`: `RiskManager`,
`TechnicalStrategyManager`, `ConsolidatedTelegramTradingBot`).

JavaScript numbers are modelled as exact rationals (`ℚ`); the JavaScript
dynamic values that actually flow into the decision table (plain numbers,
`undefined`, and the `{score, confidence}` record returned by
`analyzeSmartMoney`) are modelled by the inductive `JSVal`, with `toNumber`
returning `none` for the values that coerce to `NaN`, and the relational
operators returning `false` on `NaN` exactly as in JavaScript.
-/

namespace Vision

/-- The values that reach the score comparisons of `determineAction`:
a JavaScript number, `undefined` (an absent property read), or the
`{score, confidence}` object produced by `analyzeSmartMoney`. -/
inductive JSVal where
  | num (q : ℚ)
  | undef
  | obj (score confidence : ℚ)
deriving DecidableEq, Repr

/-- JavaScript `ToNumber` coercion as used by `<` and `>`: a number is
itself, `undefined` coerces to `NaN`, and a plain object coerces through
`ToPrimitive` to the string of the object, hence to `NaN`.  `none` stands
for `NaN`. -/
def JSVal.toNumber : JSVal → Option ℚ
  | num q => some q
  | undef => none
  | obj _ _ => none

/-- JavaScript `v < q` for `q` a numeric literal: any comparison against
`NaN` is `false`. -/
def jsLt (v : JSVal) (q : ℚ) : Bool :=
  match v.toNumber with
  | some x => decide (x < q)
  | none => false

/-- JavaScript `v > q` for `q` a numeric literal: any comparison against
`NaN` is `false`. -/
def jsGt (v : JSVal) (q : ℚ) : Bool :=
  match v.toNumber with
  | some x => decide (x > q)
  | none => false

/-- The actions returned by `determineAction`. -/
inductive Action where
  | AVOID
  | STRONG_BUY
  | WAIT
  | BUY
  | MONITOR
deriving DecidableEq, Repr

/-- The `scores` object read by `determineAction`.  Every field it ever
accesses is listed; a caller that omits a field supplies `.undef`. -/
structure Scores where
  whaleScore : JSVal
  healthScore : JSVal
  smartMoneyScore : JSVal
  riskScore : JSVal
  overallScore : JSVal
deriving DecidableEq, Repr

/-- `EnhancedTradingAnalyzer.determineAction` (src/unnamed/part_000,
lines 120-125), an if-chain evaluated top to bottom. -/
def determineAction (scores : Scores) : Action :=
  if jsLt scores.riskScore 0.7 then .AVOID
  else if jsGt scores.whaleScore 0.8 && jsGt scores.smartMoneyScore 0.7 then .STRONG_BUY
  else if jsLt scores.healthScore 0.5 then .WAIT
  else if jsGt scores.overallScore 0.75 then .BUY
  else .MONITOR

/-- The `action` field computed by
`EnhancedTradingAnalyzer.generateTradeRecommendation` (src/unnamed/part_000,
lines 101-118): it forwards to `determineAction` the four-field `scores`
object it received, which carries no `overallScore` property, so that read
yields `undefined`. -/
def generateTradeRecommendationAction
    (whaleScore healthScore smartMoneyScore riskScore : JSVal) : Action :=
  determineAction
    { whaleScore := whaleScore
      healthScore := healthScore
      smartMoneyScore := smartMoneyScore
      riskScore := riskScore
      overallScore := .undef }

/-- The record returned by `EnhancedTradingAnalyzer.analyzeSmartMoney`
(src/unnamed/part_000, lines 89-99): a `{score, confidence}` object, not a
bare number. -/
structure SMResult where
  score : ℚ
  confidence : ℚ
deriving DecidableEq, Repr

/-- `EnhancedTradingAnalyzer.analyzeSmartMoney`.  The helper calls
`analyzeAccumulationPattern`, `assessWalletQuality` and
`calculateConfidence` are external to the sources, so their outputs
(`accumulation`, `walletQuality`, `confidence`) are taken as inputs. -/
def analyzeSmartMoney (inflowRate outflowRate accumulation walletQuality confidence : ℚ) :
    SMResult :=
  let netFlow := inflowRate - outflowRate
  { score := netFlow * 0.4 + accumulation * 0.3 + walletQuality * 0.3
    confidence := confidence }

/-- The recommendation action as wired inside
`EnhancedTradingAnalyzer.analyzeTradeOpportunity` (src/unnamed/part_000,
lines 41-46 and 69-74): `smartMoneyScore` is bound to the whole record
returned by `analyzeSmartMoney` and passed on unchanged. -/
def analysisRecommendationAction (whaleScore healthScore riskScore : ℚ) (sm : SMResult) :
    Action :=
  generateTradeRecommendationAction (.num whaleScore) (.num healthScore)
    (.obj sm.score sm.confidence) (.num riskScore)

/-- `EnhancedTradingAnalyzer.calculateWhaleScore` (src/unnamed/part_000,
lines 78-87).  `normalizeTradeSize` is an external helper, passed in as a
function. -/
def calculateWhaleScore (normalizeTradeSize : ℚ → ℚ)
    (volume timeFrame holdingTime walletAge tradeSize : ℚ) : ℚ :=
  let buyPressure := volume / timeFrame
  let holdingQuality := holdingTime * walletAge
  let sizeImpact := normalizeTradeSize tradeSize
  buyPressure * 0.4 + holdingQuality * 0.4 + sizeImpact * 0.2

/-- The reasons `RiskManager.validateTrade` can give; the payload is the
configured cap interpolated into the message string. -/
inductive Reason where
  | dailyLimit (maxDailyLoss : ℚ)
  | perTradeLimit (maxLossPerTrade : ℚ)
deriving DecidableEq, Repr

/-- The result object of `RiskManager.validateTrade`: `{valid: false, reason}`
or `{valid: true}`. -/
inductive ValidationResult where
  | invalid (reason : Reason)
  | valid
deriving DecidableEq, Repr

/-- The state of `RiskManager` (src/src/trading-bot.js, lines 7-14):
the three configured caps and the mutable `dailyLoss` accumulator. -/
structure RiskManager where
  maxLossPerTrade : ℚ
  maxDailyLoss : ℚ
  maxPositionSize : ℚ
  dailyLoss : ℚ
deriving DecidableEq, Repr

/-- The fields of a trade that the risk/execution layer reads. -/
structure TPTarget where
  price : ℚ
  positionSize : ℚ
deriving DecidableEq, Repr

structure Trade where
  size : ℚ
  entryPrice : ℚ
  stopLoss : ℚ
  takeProfitTargets : List TPTarget
deriving DecidableEq, Repr

/-- `RiskManager.validateTrade` (src/src/trading-bot.js, lines 22-39):
the daily-loss check runs first; only then is the per-trade potential loss
`trade.size * (trade.stopLoss / 100)` compared to `maxLossPerTrade`. -/
def validateTrade (rm : RiskManager) (trade : Trade) : ValidationResult :=
  if rm.dailyLoss ≥ rm.maxDailyLoss then
    .invalid (.dailyLimit rm.maxDailyLoss)
  else
    let potentialLoss := trade.size * (trade.stopLoss / 100)
    if potentialLoss > rm.maxLossPerTrade then
      .invalid (.perTradeLimit rm.maxLossPerTrade)
    else
      .valid

/-- The body of the callback that `RiskManager.resetDailyLoss` schedules
(src/src/trading-bot.js, lines 16-20): `this.dailyLoss = 0`. -/
def resetDailyLoss (rm : RiskManager) : RiskManager :=
  { rm with dailyLoss := 0 }

/-- The cron pattern `0 0 * * *` passed to `schedule.scheduleJob` in
`resetDailyLoss`: it matches a minute exactly when the hour field is 0 and
the minute field is 0 (day-of-month, month and weekday are wildcards). -/
def cronMidnightMatches (hour minute : ℕ) : Bool :=
  hour == 0 && minute == 0

/-- One entry of a strategy's `positionSizing` array. -/
structure PositionSizing where
  percentage : ℚ
  target : ℚ
deriving DecidableEq, Repr

/-- The `entryConditions` fields that the risk/execution layer reads. -/
structure EntryConditions where
  stopLoss : ℚ
  takeProfitTargets : List ℚ
  positionSizing : List PositionSizing
deriving DecidableEq, Repr

structure Strategy where
  enabled : Bool
  entryConditions : EntryConditions
deriving DecidableEq, Repr

/-- `TechnicalStrategyManager` as seen by `executeTrade`: the insertion-ordered
strategy map (a list of its values) and the owned `RiskManager`. -/
structure StrategyManager where
  strategies : List Strategy
  riskManager : RiskManager
deriving DecidableEq, Repr

/-- `TechnicalStrategyManager.validateStrategy` (src/src/trading-bot.js,
lines 113-118): validates the trade with its `stopLoss` overridden by the
strategy's configured stop-loss. -/
def validateStrategy (sm : StrategyManager) (strategy : Strategy) (trade : Trade) :
    ValidationResult :=
  validateTrade sm.riskManager { trade with stopLoss := strategy.entryConditions.stopLoss }

/-- `strategy.entryConditions.positionSizing[index].percentage` as read by
`executeTrade`; out-of-range JavaScript indexing is not exercised by any
theorem below (the modelled strategies keep the arrays aligned). -/
def positionSizingPercentAt (sizing : List PositionSizing) (i : ℕ) : ℚ :=
  ((sizing.get? i).map (·.percentage)).getD 0

/-- The possible outcomes of a run of
`ConsolidatedTelegramTradingBot.executeTrade`; there is no success
constructor because every path of the source method either throws or
recurses into `executeTrade` again, so `fuelExhausted` marks a run that was
still recursing when the fuel ran out. -/
inductive ExecOutcome where
  | noActiveStrategy
  | validationFailed (reason : Reason)
  | fuelExhausted
deriving DecidableEq, Repr

/-- `ConsolidatedTelegramTradingBot.executeTrade` (src/src/trading-bot.js,
lines 359-381), fuel-indexed because its last statement is
`return await this.executeTrade(trade)`.  The active strategy is the first
`enabled` one in registry order; after validation the trade's take-profit
targets, position sizes and stop-loss are computed, and then the method
calls itself on the updated trade. -/
def executeTradeFuel (sm : StrategyManager) : ℕ → Trade → ExecOutcome
  | 0, _ => .fuelExhausted
  | n + 1, trade =>
    match sm.strategies.find? (·.enabled) with
    | none => .noActiveStrategy
    | some strat =>
      match validateStrategy sm strat trade with
      | .invalid r => .validationFailed r
      | .valid =>
        let trade' : Trade :=
          { trade with
            takeProfitTargets :=
              strat.entryConditions.takeProfitTargets.enum.map (fun p =>
                { price := trade.entryPrice * (1 + p.2 / 100)
                  positionSize :=
                    positionSizingPercentAt strat.entryConditions.positionSizing p.1 / 100
                      * trade.size })
            stopLoss := strat.entryConditions.stopLoss }
        executeTradeFuel sm n trade'

/-- `ConsolidatedTelegramTradingBot.calculatePositionSizing`
(src/src/trading-bot.js, lines 420-425):
`targets.map((target, index) => ({percentage: index === 0 ? 40 : 30, target}))`. -/
def calculatePositionSizing (targets : List ℚ) : List PositionSizing :=
  targets.enum.map (fun p => { percentage := if p.1 = 0 then 40 else 30, target := p.2 })

/-- The target-list computation of the `settp` command handler
(src/src/trading-bot.js, lines 290-292):
`targets.map(t => parseFloat(t)).filter(t => !isNaN(t)).sort((a, b) => a - b)`.
Each raw token is modelled by its `parseFloat` result, `none` standing for
`NaN`; the numeric comparator sorts ascending, and since the elements are
plain numbers the sorted arrangement is unique, so any correct sort (here
insertion sort) computes it. -/
def settpTargets (tokens : List (Option ℚ)) : List ℚ :=
  (tokens.filterMap id).insertionSort (· ≤ ·)

/-- The strategy update performed by the `settp` handler
(src/src/trading-bot.js, lines 294-295): store the parsed, filtered, sorted
targets and recompute `positionSizing` from them. -/
def settpUpdate (strategy : Strategy) (tokens : List (Option ℚ)) : Strategy :=
  let tps := settpTargets tokens
  { strategy with
    entryConditions :=
      { strategy.entryConditions with
        takeProfitTargets := tps
        positionSizing := calculatePositionSizing tps } }

/-- The join of `Promise.all` over the four provider calls issued by
`EnhancedTradingAnalyzer.analyzeTradeOpportunity` (src/unnamed/part_000,
lines 11-22): each provider either rejects with an error or fulfills with a
value; the aggregate rejects as soon as any input rejects and never exposes
the other results, and fulfills with the complete quadruple only when all
four fulfill. -/
def aggregateMetrics {ε α β γ δ : Type} (whaleActivity : Except ε α)
    (tokenMetrics : Except ε β) (smartMoneyFlow : Except ε γ)
    (manipulationScore : Except ε δ) : Except ε (α × β × γ × δ) := do
  let a ← whaleActivity
  let b ← tokenMetrics
  let c ← smartMoneyFlow
  let d ← manipulationScore
  pure (a, b, c, d)

/-- The `breakout` strategy installed by
`TechnicalStrategyManager.initializeTechnicalStrategies`
(src/src/trading-bot.js, lines 51-66), restricted to the entry-condition
fields the risk/execution layer reads; `addStrategy` inserts it with
`enabled := false`. -/
def breakoutStrategy : Strategy :=
  { enabled := false
    entryConditions :=
      { stopLoss := 2
        takeProfitTargets := [6, 12, 18]
        positionSizing := [⟨40, 6⟩, ⟨30, 12⟩, ⟨30, 18⟩] } }

/-- The strategy manager after `/strategy activate breakout` set
`enabled := true` on the breakout strategy, with the `RiskManager` built
from the module's config (`maxLossPerTrade = 2`, `maxDailyLoss = 6`,
`maxPositionSize = 5`) and a fresh `dailyLoss = 0`. -/
def activatedManager : StrategyManager :=
  { strategies := [{ breakoutStrategy with enabled := true }]
    riskManager := ⟨2, 6, 5, 0⟩ }

/-- A proposed trade that passes risk validation: potential loss
`50 * (2 / 100) = 1 ≤ 2` and daily loss `0 < 6`. -/
def demoTrade : Trade := ⟨50, 100, 0, []⟩

/-- The trade as `executeTrade` has rewritten it just before its recursive
call on `demoTrade`: stop-loss 2 and take-profit targets
`[{106, 20}, {112, 15}, {118, 15}]`.  Rewriting it again reproduces it
unchanged, which is what makes the recursion loop forever. -/
def loopTrade : Trade := ⟨50, 100, 2, [⟨106, 20⟩, ⟨112, 15⟩, ⟨118, 15⟩]⟩

/-! ## Claims -/

/-- C1: for every score vector, if `riskScore < 0.7` then `determineAction`
returns `AVOID`, whatever the other four fields hold (even `undefined` or a
non-numeric object): the risk rule is the first branch of the if-chain and
short-circuits the rest. -/
theorem determineAction_avoid_of_low_risk
    (whaleScore healthScore smartMoneyScore overallScore : JSVal) (risk : ℚ)
    (h : risk < 0.7) :
    determineAction
      { whaleScore := whaleScore
        healthScore := healthScore
        smartMoneyScore := smartMoneyScore
        riskScore := .num risk
        overallScore := overallScore } = .AVOID := by
  simp [determineAction, jsLt, JSVal.toNumber, h]

theorem determineAction_avoid_of_low_risk_witness :
    (0.5 : ℚ) < 0.7 ∧
      determineAction
        { whaleScore := .num 0.95
          healthScore := .num 0.95
          smartMoneyScore := .num 0.95
          riskScore := .num 0.5
          overallScore := .num 0.95 } = .AVOID := by
  refine ⟨by norm_num, determineAction_avoid_of_low_risk _ _ _ _ _ (by norm_num)⟩

/-- C2 counterexample evaluation: at the spec vector `riskScore = 0.8`,
`whaleScore = 0.5`, `smartMoneyScore = 0.5`, `healthScore = 0.6` the claim
expects `BUY` (its `overallScore` being `0.8 > 0.75`), but the action that
`generateTradeRecommendation` computes is `MONITOR`: the scores object it
hands to `determineAction` has no `overallScore` property, so the read
yields `undefined` and `undefined > 0.75` is `false`.  The same holds for
every score vector reaching rule 4: `BUY` is unreachable through
`generateTradeRecommendation`. -/
theorem generateTradeRecommendation_rule4_always_monitor :
    generateTradeRecommendationAction (.num 0.5) (.num 0.6) (.num 0.5) (.num 0.8) = .MONITOR ∧
      ∀ w h s r : JSVal, generateTradeRecommendationAction w h s r ≠ .BUY := by
  constructor
  · simp [generateTradeRecommendationAction, determineAction, jsLt, jsGt, JSVal.toNumber]
    norm_num
  · intro w h s r
    simp only [generateTradeRecommendationAction, determineAction, jsGt, JSVal.toNumber]
    split
    · simp
    · split
      · simp
      · split
        · simp
        · simp

theorem generateTradeRecommendation_rule4_always_monitor_witness :
    generateTradeRecommendationAction (.num 0.9) (.num 0.9) (.num 0.65) (.num 0.9) ≠ .BUY :=
  generateTradeRecommendation_rule4_always_monitor.2 (.num 0.9) (.num 0.9) (.num 0.65) (.num 0.9)

/-- C3: `validateTrade` reports the daily-limit reason whenever the
accumulated daily loss has reached `maxDailyLoss`, whatever the trade
holds; below that limit it reports the per-trade-limit reason exactly when
`trade.size * (trade.stopLoss / 100) > maxLossPerTrade`, and is valid
otherwise — the daily check runs first. -/
theorem validateTrade_spec (rm : RiskManager) (trade : Trade) :
    (rm.dailyLoss ≥ rm.maxDailyLoss →
      validateTrade rm trade = .invalid (.dailyLimit rm.maxDailyLoss)) ∧
    (rm.dailyLoss < rm.maxDailyLoss →
      trade.size * (trade.stopLoss / 100) > rm.maxLossPerTrade →
      validateTrade rm trade = .invalid (.perTradeLimit rm.maxLossPerTrade)) ∧
    (rm.dailyLoss < rm.maxDailyLoss →
      trade.size * (trade.stopLoss / 100) ≤ rm.maxLossPerTrade →
      validateTrade rm trade = .valid) := by
  refine ⟨fun h => ?_, fun h1 h2 => ?_, fun h1 h2 => ?_⟩
  · simp [validateTrade, h]
  · simp [validateTrade, not_le.mpr h1, h2]
  · simp [validateTrade, not_le.mpr h1, not_lt.mpr h2]

theorem validateTrade_spec_witness :
    ((6 : ℚ) ≥ 6 ∧
      validateTrade ⟨2, 6, 5, 6⟩ ⟨100, 0, 3, []⟩ = .invalid (.dailyLimit 6)) ∧
    ((0 : ℚ) < 6 ∧ (100 : ℚ) * (3 / 100) > 2 ∧
      validateTrade ⟨2, 6, 5, 0⟩ ⟨100, 0, 3, []⟩ = .invalid (.perTradeLimit 2)) ∧
    ((0 : ℚ) < 6 ∧ (50 : ℚ) * (2 / 100) ≤ 2 ∧
      validateTrade ⟨2, 6, 5, 0⟩ ⟨50, 0, 2, []⟩ = .valid) := by
  refine ⟨⟨by norm_num, (validateTrade_spec ⟨2, 6, 5, 6⟩ ⟨100, 0, 3, []⟩).1 (by norm_num)⟩,
    ⟨by norm_num, by norm_num,
      (validateTrade_spec ⟨2, 6, 5, 0⟩ ⟨100, 0, 3, []⟩).2.1 (by norm_num) (by norm_num)⟩,
    ⟨by norm_num, by norm_num,
      (validateTrade_spec ⟨2, 6, 5, 0⟩ ⟨50, 0, 2, []⟩).2.2 (by norm_num) (by norm_num)⟩⟩

/-- C8 counterexample evaluation: `analyzeSmartMoney` does return the
claimed weighted score `0.4·(inflow − outflow) + 0.3·accumulation +
0.3·walletQuality` — here `0.75` — but `analyzeTradeOpportunity` binds the
whole `{score, confidence}` record as `smartMoneyScore`, so the decision
table's `smartMoneyScore > 0.7` compares an object (which coerces to `NaN`)
and is `false`: at the spec vector `riskScore = 0.8`, `whaleScore = 0.85`,
`healthScore = 0.9`, smart-money score `0.75` the claim expects
`STRONG_BUY`, but the computed action is `MONITOR`. -/
theorem analysisRecommendation_smartmoney_object_monitor :
    (analyzeSmartMoney 1 0.25 0.75 0.75 0.9).score = 0.75 ∧
      analysisRecommendationAction 0.85 0.9 0.8 (analyzeSmartMoney 1 0.25 0.75 0.75 0.9) =
        .MONITOR := by
  constructor
  · simp [analyzeSmartMoney]; norm_num
  · simp [analysisRecommendationAction, generateTradeRecommendationAction, determineAction,
      jsLt, jsGt, JSVal.toNumber]
    norm_num

/-- C10: `validateTrade` never consults `maxPositionSize`: two risk
managers that agree on `maxLossPerTrade`, `maxDailyLoss` and `dailyLoss`
validate every trade identically, whatever their `maxPositionSize`. -/
theorem validateTrade_ignores_maxPositionSize (rm₁ rm₂ : RiskManager) (trade : Trade)
    (hLoss : rm₁.maxLossPerTrade = rm₂.maxLossPerTrade)
    (hDaily : rm₁.maxDailyLoss = rm₂.maxDailyLoss)
    (hAcc : rm₁.dailyLoss = rm₂.dailyLoss) :
    validateTrade rm₁ trade = validateTrade rm₂ trade := by
  simp [validateTrade, hLoss, hDaily, hAcc]

theorem validateTrade_ignores_maxPositionSize_witness :
    (RiskManager.maxLossPerTrade ⟨2, 6, 5, 0⟩ = RiskManager.maxLossPerTrade ⟨2, 6, 99, 0⟩) ∧
    (RiskManager.maxDailyLoss ⟨2, 6, 5, 0⟩ = RiskManager.maxDailyLoss ⟨2, 6, 99, 0⟩) ∧
    (RiskManager.dailyLoss ⟨2, 6, 5, 0⟩ = RiskManager.dailyLoss ⟨2, 6, 99, 0⟩) ∧
    validateTrade ⟨2, 6, 5, 0⟩ ⟨100, 0, 3, []⟩ = validateTrade ⟨2, 6, 99, 0⟩ ⟨100, 0, 3, []⟩ := by
  exact ⟨rfl, rfl, rfl,
    validateTrade_ignores_maxPositionSize ⟨2, 6, 5, 0⟩ ⟨2, 6, 99, 0⟩ ⟨100, 0, 3, []⟩ rfl rfl rfl⟩

/-- C4: the `Promise.all` join of `analyzeTradeOpportunity` is fail-fast:
if any of the four provider results is an error, the aggregate is an error
and no snapshot (in particular no partial one — the success type carries
all four components) reaches the caller; when all four succeed the
aggregate is the complete quadruple. -/
theorem aggregateMetrics_fail_fast {ε α β γ δ : Type}
    (wa : Except ε α) (tm : Except ε β) (sf : Except ε γ) (ms : Except ε δ) :
    (((∃ e, wa = .error e) ∨ (∃ e, tm = .error e) ∨ (∃ e, sf = .error e) ∨
        (∃ e, ms = .error e)) →
      ∃ e, aggregateMetrics wa tm sf ms = .error e) ∧
    (∀ a b c d, wa = .ok a → tm = .ok b → sf = .ok c → ms = .ok d →
      aggregateMetrics wa tm sf ms = .ok (a, b, c, d)) := by
  constructor
  · intro hfail
    cases wa with
    | error e => exact ⟨e, rfl⟩
    | ok a =>
      cases tm with
      | error e => exact ⟨e, rfl⟩
      | ok b =>
        cases sf with
        | error e => exact ⟨e, rfl⟩
        | ok c =>
          cases ms with
          | error e => exact ⟨e, rfl⟩
          | ok d =>
            rcases hfail with ⟨e, he⟩ | ⟨e, he⟩ | ⟨e, he⟩ | ⟨e, he⟩ <;> cases he
  · intro a b c d ha hb hc hd
    subst ha hb hc hd
    rfl

theorem aggregateMetrics_fail_fast_witness :
    ((∃ e, (Except.error 7 : Except ℕ ℕ) = .error e) ∨
        (∃ e, (Except.ok 1 : Except ℕ ℕ) = .error e) ∨
        (∃ e, (Except.ok 2 : Except ℕ ℕ) = .error e) ∨
        (∃ e, (Except.ok 3 : Except ℕ ℕ) = .error e)) ∧
    (∃ e, aggregateMetrics (Except.error 7 : Except ℕ ℕ) (Except.ok 1) (Except.ok 2)
        (Except.ok 3) = .error e) ∧
    aggregateMetrics (Except.ok 0 : Except ℕ ℕ) (Except.ok 1) (Except.ok 2) (Except.ok 3) =
      .ok (0, 1, 2, 3) := by
  refine ⟨Or.inl ⟨7, rfl⟩, ?_, ?_⟩
  · exact (aggregateMetrics_fail_fast (Except.error 7) (Except.ok 1) (Except.ok 2)
      (Except.ok 3)).1 (Or.inl ⟨7, rfl⟩)
  · exact (aggregateMetrics_fail_fast (Except.ok 0) (Except.ok 1) (Except.ok 2)
      (Except.ok 3)).2 0 1 2 3 rfl rfl rfl rfl

theorem executeTrade_step_demo (n : ℕ) :
    executeTradeFuel activatedManager (n + 1) demoTrade =
      executeTradeFuel activatedManager n loopTrade := by
  simp only [executeTradeFuel, activatedManager, breakoutStrategy, demoTrade, loopTrade,
    List.find?, validateStrategy, validateTrade, positionSizingPercentAt]
  norm_num [List.enum, List.enumFrom, TPTarget.mk.injEq]

theorem executeTrade_step_loop (n : ℕ) :
    executeTradeFuel activatedManager (n + 1) loopTrade =
      executeTradeFuel activatedManager n loopTrade := by
  simp only [executeTradeFuel, activatedManager, breakoutStrategy, loopTrade,
    List.find?, validateStrategy, validateTrade, positionSizingPercentAt]
  norm_num [List.enum, List.enumFrom, TPTarget.mk.injEq]

theorem executeTrade_loop_exhausts (n : ℕ) :
    executeTradeFuel activatedManager n loopTrade = .fuelExhausted := by
  induction n with
  | zero => rfl
  | succ m ih => rw [executeTrade_step_loop]; exact ih

/-- C5 counterexample evaluation: with the breakout strategy activated and
a trade that passes every risk check, `executeTrade` never completes: for
every recursion budget `n` the run is still recursing into
`this.executeTrade(trade)` when the budget runs out, because after the
first iteration the trade is rewritten to `loopTrade` and then rewritten to
itself forever.  The claim (and §4.6/§9 of the spec) requires preparation
to terminate and hand submission to an external collaborator. -/
theorem executeTrade_never_completes :
    ∀ n : ℕ, executeTradeFuel activatedManager n demoTrade = .fuelExhausted := by
  intro n
  cases n with
  | zero => rfl
  | succ m => rw [executeTrade_step_demo]; exact executeTrade_loop_exhausts m

theorem settp_calcPS_enumFrom (k : ℕ) (hk : k ≠ 0) (l : List ℚ) :
    (l.enumFrom k).map
        (fun p => ({ percentage := if p.1 = 0 then 40 else 30, target := p.2 } : PositionSizing)) =
      l.map (fun u => { percentage := 30, target := u }) := by
  induction l generalizing k with
  | nil => rfl
  | cons x xs ih =>
    simp [List.enumFrom, hk]
    exact ih (k + 1) (by omega)

/-- C6: the `settp` handler keeps exactly the numeric targets (the stored
list is a sorted-ascending permutation of the `parseFloat`-successful
entries), stores them together with a recomputed `positionSizing` giving
40% to the first target and 30% to every later one, and on the input
`[12, 6, 18]` stores `[6, 12, 18]` with sizing
`[{40, 6}, {30, 12}, {30, 18}]`. -/
theorem settp_spec (tokens : List (Option ℚ)) (strategy : Strategy) :
    List.Sorted (· ≤ ·) (settpTargets tokens) ∧
    (settpTargets tokens).Perm (tokens.filterMap id) ∧
    (settpUpdate strategy tokens).entryConditions.takeProfitTargets = settpTargets tokens ∧
    (settpUpdate strategy tokens).entryConditions.positionSizing =
      calculatePositionSizing (settpTargets tokens) ∧
    (calculatePositionSizing (settpTargets tokens) =
      match settpTargets tokens with
      | [] => []
      | t :: rest => ⟨40, t⟩ :: rest.map (fun u => ⟨30, u⟩)) ∧
    settpTargets [some 12, some 6, some 18] = [6, 12, 18] ∧
    calculatePositionSizing [6, 12, 18] = [⟨40, 6⟩, ⟨30, 12⟩, ⟨30, 18⟩] := by
  refine ⟨List.sorted_insertionSort _ _, List.perm_insertionSort _ _, rfl, rfl, ?_, ?_, ?_⟩
  · cases h : settpTargets tokens with
    | nil => simp [calculatePositionSizing]
    | cons t rest =>
      simp only [calculatePositionSizing, List.enum_cons, List.map_cons, if_pos rfl]
      exact congrArg _ (settp_calcPS_enumFrom 1 (by omega) rest)
  · norm_num [settpTargets, List.insertionSort, List.orderedInsert]
  · simp [calculatePositionSizing, List.enum, List.enumFrom]

/-- C7 counterexample: `calculateWhaleScore` does not clamp.  With the
external normalizer `fun _ => 0` (which is monotone with range inside
`[0,1]`), recent buy volume 100 over time frame 1 and the other inputs 0,
the returned whale score is 40, far outside `[0,1]`. -/
theorem calculateWhaleScore_not_clamped :
    calculateWhaleScore (fun _ => 0) 100 1 0 0 0 = 40 ∧
      ¬ calculateWhaleScore (fun _ => 0) 100 1 0 0 0 ≤ 1 := by
  constructor
  · simp [calculateWhaleScore]; norm_num
  · simp [calculateWhaleScore]; norm_num

/-- C7 amended: `calculateWhaleScore` returns the unclamped weighted sum
`0.4·buyPressure + 0.4·holdingQuality + 0.2·sizeImpact`; it lies in `[0,1]`
when each of the three components does (which the code does not itself
enforce). -/
theorem calculateWhaleScore_bounds (normalizeTradeSize : ℚ → ℚ)
    (volume timeFrame holdingTime walletAge tradeSize : ℚ)
    (h1 : 0 ≤ volume / timeFrame) (h2 : volume / timeFrame ≤ 1)
    (h3 : 0 ≤ holdingTime * walletAge) (h4 : holdingTime * walletAge ≤ 1)
    (h5 : 0 ≤ normalizeTradeSize tradeSize) (h6 : normalizeTradeSize tradeSize ≤ 1) :
    0 ≤ calculateWhaleScore normalizeTradeSize volume timeFrame holdingTime walletAge tradeSize ∧
      calculateWhaleScore normalizeTradeSize volume timeFrame holdingTime walletAge tradeSize
        ≤ 1 := by
  simp only [calculateWhaleScore]
  constructor <;> nlinarith

theorem calculateWhaleScore_bounds_witness :
    ((0 : ℚ) ≤ 1 / 2 ∧ (1 / 2 : ℚ) ≤ 1 ∧ (0 : ℚ) ≤ 1 * (1 / 2) ∧ (1 : ℚ) * (1 / 2) ≤ 1 ∧
        (0 : ℚ) ≤ 1 / 2 ∧ (1 / 2 : ℚ) ≤ 1) ∧
      0 ≤ calculateWhaleScore (fun _ => 1 / 2) 1 2 1 (1 / 2) 9 ∧
        calculateWhaleScore (fun _ => 1 / 2) 1 2 1 (1 / 2) 9 ≤ 1 := by
  refine ⟨⟨by norm_num, by norm_num, by norm_num, by norm_num, by norm_num, by norm_num⟩, ?_⟩
  exact calculateWhaleScore_bounds (fun _ => 1 / 2) 1 2 1 (1 / 2) 9
    (by norm_num) (by norm_num) (by norm_num) (by norm_num) (by norm_num) (by norm_num)

/-- C9: the scheduled reset callback sets the accumulator to 0 whatever it
held, so a `validateTrade` call that runs after the reset (and before any
further loss settlement) observes `dailyLoss = 0` and can never fail with
the daily-limit reason while `maxDailyLoss` is positive; and the cron
pattern `0 0 * * *` fires at exactly one minute of each day, the minute
`00:00` at the day boundary. -/
theorem resetDailyLoss_spec (rm : RiskManager) (trade : Trade)
    (hpos : 0 < rm.maxDailyLoss) :
    (resetDailyLoss rm).dailyLoss = 0 ∧
    (∀ r : ℚ, validateTrade (resetDailyLoss rm) trade ≠ .invalid (.dailyLimit r)) ∧
    (∀ hr mi : ℕ, cronMidnightMatches hr mi = true ↔ hr = 0 ∧ mi = 0) := by
  refine ⟨rfl, fun r => ?_, fun hr mi => by simp [cronMidnightMatches]⟩
  simp only [validateTrade, resetDailyLoss]
  rw [if_neg (by simpa using hpos)]
  split
  · simp
  · simp

theorem resetDailyLoss_spec_witness :
    (0 : ℚ) < 6 ∧
      (resetDailyLoss ⟨2, 6, 5, 6⟩).dailyLoss = 0 ∧
      (∀ r : ℚ,
        validateTrade (resetDailyLoss ⟨2, 6, 5, 6⟩) ⟨100, 0, 3, []⟩ ≠ .invalid (.dailyLimit r)) ∧
      (∀ hr mi : ℕ, cronMidnightMatches hr mi = true ↔ hr = 0 ∧ mi = 0) := by
  exact ⟨by norm_num, resetDailyLoss_spec ⟨2, 6, 5, 6⟩ ⟨100, 0, 3, []⟩ (by norm_num)⟩

end Vision
